import Mathlib

/-!
Verification of the go-socks5 SOCKS5 proxy server core against its
specification.  The Go source (socks5.go, credentials.go, error and
context helpers) is shallowly embedded: pure functions become Lean
functions, the per-connection engine becomes a function over an explicit
connection state recording reads, writes and closes, and the concurrent
accept loop becomes a function over an explicit schedule of select
resolutions.  Components of the repository that are referenced by the
embedded files but whose own code is not part of the given slice
(authenticators, request decoding, reply encoding, request handling) are
either taken as parameters or modelled from the specification text, and
are marked as such.
-/

namespace Socks5

/-- A Go error value, reduced to its message. -/
structure GoErr where
  msg : String
deriving Repr, DecidableEq

/-- A Go panic, reduced to its message. -/
structure GoPanic where
  msg : String
deriving Repr, DecidableEq

/-! ## credentials.go -/

/-- StaticCredentials enables using a map directly as a credential store
(credentials.go).  The Go map from usernames to passwords is modelled as
an association list with at most one binding per key; lookup follows Go
map indexing. -/
def StaticCredentials : Type := List (String × String)

instance : DecidableEq StaticCredentials := by
  unfold StaticCredentials
  infer_instance

/-- Embedding of StaticCredentials.Valid: look the user up, return false
when absent, otherwise compare the given password with the stored one. -/
def StaticCredentials.Valid (s : StaticCredentials) (user password : String) : Bool :=
  match List.lookup user s with
  | none => false
  | some pass => password == pass

/-- A CredentialStore capability.  The interface has two provided
implementations (credentials.go): the fixed map, and a function adapter.
The adapter is kept abstract as a Bool-valued validation function. -/
inductive CredentialStore where
  | static (s : StaticCredentials)
  | funcStore (f : String → String → Bool)

/-- Valid on either credential store implementation. -/
def CredentialStore.Valid : CredentialStore → String → String → Bool
  | .static s, u, p => s.Valid u p
  | .funcStore f, u, p => f u p

/-! ## Error wrapper (error helper file) -/

/-- The two endpoint addresses of a connection, each rendered the way
net.Addr.String() would render it. -/
structure ConnAddrInfo where
  remoteAddr : String
  localAddr : String
deriving Repr, DecidableEq

/-- Interpreter for the fmt.Sprintf format strings used by the error
wrapper: each %s verb consumes one argument, every other character is
copied verbatim. -/
def sprintfS : List Char → List String → List Char
  | '%' :: 's' :: rest, a :: args => a.data ++ sprintfS rest args
  | c :: rest, args => c :: sprintfS rest args
  | [], _ => []

/-- Embedding of the source type named Error (the wrapped connection
error): an underlying cause, the connection, and the in-flight request
when available.  The request field is irrelevant to rendering and
unwrapping and is kept as a presence flag. -/
structure WrapdError where
  Err : GoErr
  Conn : ConnAddrInfo
  hasRequest : Bool
deriving Repr, DecidableEq

/-- wrapError constructor from the error helper file. -/
def wrapError (err : GoErr) (conn : ConnAddrInfo) (hasReq : Bool) : WrapdError :=
  { Err := err, Conn := conn, hasRequest := hasReq }

/-- The rendering method: fmt.Sprintf with format string
given verbatim from the source, applied to remote address, local
address and the underlying cause. -/
def WrapdError.errorString (e : WrapdError) : String :=
  ⟨sprintfS "%s -> %s: %s".data [e.Conn.remoteAddr, e.Conn.localAddr, e.Err.msg]⟩

/-- The Unwrap method returns the underlying cause. -/
def WrapdError.unwrap (e : WrapdError) : GoErr := e.Err

/-! ## Config and New (socks5.go) -/

/-- An Authenticator strategy.  Modelled from the spec: the provided
implementations are no-auth (method code 0) and username/password
(method code 2, backed by a credential store); the interface is open to
custom methods, kept abstract with their method code.  The
authenticator implementations themselves are not part of the given
source slice. -/
inductive Authenticator where
  | NoAuthAuthenticator
  | UserPassAuthenticator (credentials : CredentialStore)
  | custom (code : Nat)

/-- GetCode of an authenticator.  Modelled from the spec: the wire
scenarios fix no-auth to method byte 0 and username/password to method
byte 2. -/
def Authenticator.GetCode : Authenticator → Nat
  | .NoAuthAuthenticator => 0
  | .UserPassAuthenticator _ => 2
  | .custom c => c

/-- A NameResolver strategy.  Modelled from the spec: the default is the
ambient DNS resolver; custom resolvers stay abstract. -/
inductive NameResolver where
  | DNSResolver
  | custom (tag : Nat)
deriving Repr, DecidableEq

/-- A RuleSet strategy.  Modelled from the spec: the default permits
every request; custom rule sets stay abstract. -/
inductive RuleSet where
  | PermitAll
  | custom (tag : Nat)
deriving Repr, DecidableEq

/-- Config from socks5.go.  Fields that New never reads are kept as
abstract presence tags where their content does not matter to any
claim; nil-able Go fields become options. -/
structure Config where
  AuthMethods : List Authenticator := []
  AuthMethodsSort : Option (List Nat → List Nat) := none
  Credentials : Option CredentialStore := none
  Resolver : Option NameResolver := none
  Rules : Option RuleSet := none
  Rewriter : Option Nat := none
  BindIP : Option (List Nat) := none
  ErrorHandler : Option (GoErr → Unit) := none
  BaseContext : Option Nat := none
  Dial : Option Nat := none

/-- The Server structure from socks5.go: the (post-default) config, the
method-code-keyed authenticator registry, and the shutdown/listener
state.  The registry map is modelled as a lookup function built by
repeated overwriting insertion, as Go map assignment does. -/
structure Server where
  config : Config
  authMethods : Nat → Option Authenticator
  shutdownClosed : Bool
  listenerSet : Bool

/-- Embedding of New: fill in the default authentication methods (from
the credential store when present, no-auth otherwise) when none are
configured, default the resolver and rule set, build the authenticator
registry, and return the server with a nil error.  The Go signature
(*Server, error) is modelled as an option paired with an optional
error. -/
def New (conf : Config) : Option Server × Option GoErr :=
  let conf1 :=
    if conf.AuthMethods.length = 0 then
      match conf.Credentials with
      | some c => { conf with AuthMethods := [Authenticator.UserPassAuthenticator c] }
      | none => { conf with AuthMethods := [Authenticator.NoAuthAuthenticator] }
    else conf
  let conf2 :=
    if conf1.Resolver.isNone then { conf1 with Resolver := some NameResolver.DNSResolver }
    else conf1
  let conf3 :=
    if conf2.Rules.isNone then { conf2 with Rules := some RuleSet.PermitAll }
    else conf2
  let registry := conf3.AuthMethods.foldl
    (fun m a => fun code => if code = a.GetCode then some a else m code)
    (fun _ => none)
  (some { config := conf3, authMethods := registry,
          shutdownClosed := false, listenerSet := false }, none)

/-! ## Connection state and ServeConn (socks5.go) -/

/-- Observable actions of the per-connection engine on the client
connection: a byte written, a Close call, and markers recording that
authentication negotiation respectively request decoding was entered. -/
inductive Ev where
  | write (b : Nat)
  | close
  | authStart
  | reqStart
deriving Repr, DecidableEq

/-- The state of one client connection: the bytes still unread from the
client, and the trace of actions the server performed on it so far. -/
structure ConnState where
  input : List Nat
  events : List Ev
deriving Repr, DecidableEq

/-- Read one byte from the connection; none models a read error (no
byte available). -/
def readByte (st : ConnState) : Option (Nat × ConnState) :=
  match st.input with
  | [] => none
  | b :: rest => some (b, { st with input := rest })

/-- Record a sequence of bytes written to the client. -/
def writeBytes (bs : List Nat) (st : ConnState) : ConnState :=
  { st with events := st.events ++ bs.map Ev.write }

/-- Record a Close call on the client connection. -/
def closeConn (st : ConnState) : ConnState :=
  { st with events := st.events ++ [Ev.close] }

/-- Record entering a protocol phase. -/
def markEv (e : Ev) (st : ConnState) : ConnState :=
  { st with events := st.events ++ [e] }

/-- Number of Close calls performed on the connection so far. -/
def closeCount (st : ConnState) : Nat := st.events.count Ev.close

/-- The sentinel decode error distinguishing an unrecognized address
type from every other malformed request frame, as the request decoder
signals it. -/
inductive DecodeErr where
  | unrecognizedAddrType
  | malformed (msg : String)
deriving Repr, DecidableEq

/-- The reply code for address type not supported (spec reply-code
table: 8). -/
def addrTypeNotSupported : Nat := 8

/-- Modelled from the spec: sendReply, whose code is not in the given
slice, writes a reply frame version(1)=5, reply-code(1), reserved(1)=0,
address-type(1)=1 with a zeroed IPv4 bound address and port when no
bound address is supplied (scenario C shows the exact bytes 05 07 00 01
00 00 00 00 00 00). -/
def sendReply (code : Nat) (st : ConnState) : ConnState :=
  writeBytes [5, code, 0, 1, 0, 0, 0, 0, 0, 0] st

/-- The outcome of successful authentication, kept abstract: the claims
treated here only pass it through to the request. -/
structure AuthContext where
  method : Nat
  payload : List (String × String)
deriving Repr, DecidableEq

/-- A decoded Request, with the fields ServeConn touches.  The command
and destination stay abstract tags. -/
structure Request where
  command : Nat
  destTag : Nat
  authCtx : Option AuthContext := none
deriving Repr, DecidableEq

/-- The type of the authentication subroutine ServeConn delegates to:
it transforms the connection state (reading the greeting, writing the
method choice, running the subnegotiation) and either fails or produces
an AuthContext.  Its code is not in the given slice, so ServeConn is
parametrised over it. -/
def AuthFun : Type := ConnState → Except GoErr AuthContext × ConnState

/-- The type of the request decoder NewRequest: transforms the
connection state and either fails with a DecodeErr or produces a
Request.  Its code is not in the given slice. -/
def NewRequestFun : Type := ConnState → Except DecodeErr Request × ConnState

/-- The type of the request handler handleRequest: consumes the decoded
request, transforms the connection state and may fail.  Its code is not
in the given slice. -/
def HandleFun : Type := Request → ConnState → Except GoErr Unit × ConnState

/-- The body of ServeConn before the deferred Close: read the version
byte, reject a non-5 version, authenticate, decode the request (sending
an address-type-not-supported reply first when decoding failed with the
unrecognized-address-type error), attach the auth context, and handle
the request.  Every failure is wrapped; the wrapping context is kept as
the message prefix from the source. -/
def serveConnBody (auth : AuthFun) (newRequest : NewRequestFun) (handle : HandleFun)
    (st : ConnState) : Except GoErr Unit × ConnState :=
  match readByte st with
  | none => (Except.error { msg := "read version byte" }, st)
  | some (version, st1) =>
    if version ≠ 5 then
      (Except.error { msg := "unsupported socks version" }, st1)
    else
      match auth (markEv Ev.authStart st1) with
      | (Except.error e, st2) =>
        (Except.error { msg := "authenticate: " ++ e.msg }, st2)
      | (Except.ok authCtx, st2) =>
        match newRequest (markEv Ev.reqStart st2) with
        | (Except.error de, st3) =>
          if de = DecodeErr.unrecognizedAddrType then
            (Except.error { msg := "read dst addr" }, sendReply addrTypeNotSupported st3)
          else
            (Except.error { msg := "read dst addr" }, st3)
        | (Except.ok request, st3) =>
          match handle { request with authCtx := some authCtx } st3 with
          | (Except.error _, st4) => (Except.error { msg := "handle request" }, st4)
          | (Except.ok _, st4) => (Except.ok (), st4)

/-- Embedding of ServeConn: run the body, then perform the deferred
conn.Close() on every return path. -/
def ServeConn (auth : AuthFun) (newRequest : NewRequestFun) (handle : HandleFun)
    (st : ConnState) : Except GoErr Unit × ConnState :=
  match serveConnBody auth newRequest handle st with
  | (r, st1) => (r, closeConn st1)

/-! ## Shutdown (socks5.go) -/

/-- The mutable lifecycle state Shutdown touches: whether the shutdown
channel has been closed and whether a listener has been stored and, if
so, closed.  The mutex serialises Shutdown calls, so Shutdown itself is
a sequential state transformer. -/
structure LifecycleState where
  shutdownClosed : Bool
  listenerSet : Bool
  listenerClosed : Bool
deriving Repr, DecidableEq

/-- Embedding of Shutdown: close(s.shutdown), then close the listener
when one is set.  Per the Go language, close on an already-closed
channel panics with "close of closed channel"; Close on an
already-closed net listener merely returns an error, which the source
discards. -/
def Shutdown (s : LifecycleState) : Except GoPanic LifecycleState :=
  if s.shutdownClosed then
    Except.error { msg := "close of closed channel" }
  else
    Except.ok { shutdownClosed := true,
                listenerSet := s.listenerSet,
                listenerClosed := s.listenerSet || s.listenerClosed }

/-! ## Serve (socks5.go) -/

/-- A connection handed over by the accept goroutine, kept abstract. -/
def NetConn : Type := Nat

instance : DecidableEq NetConn := by
  unfold NetConn
  infer_instance

instance : Repr NetConn := by
  unfold NetConn
  infer_instance

/-- One resolved select case of the Serve loop.  The accept goroutine
feeds connections and at most one terminal error into two unbuffered
channels, and Shutdown closes the shutdown channel; the loop repeatedly
selects among the ready cases.  A schedule is the sequence of cases the
select statement resolves; when several cases are ready at once Go
chooses pseudo-randomly, so every interleaving of ready cases is a
legal schedule. -/
inductive LoopEv where
  | conn (c : NetConn)
  | acceptErr (e : GoErr)
  | shutdownSig
deriving Repr, DecidableEq

/-- The error net.Listener.Accept returns once the listener has been
closed by Shutdown. -/
def errListenerClosed : GoErr := { msg := "use of closed network connection" }

/-- Embedding of the Serve select loop over a schedule: a received
connection spawns a handler task and the loop continues; a received
accept error is returned; a readable (closed) shutdown channel returns
nil.  The result is Serve's return value (none while the loop is still
blocked at the end of the schedule, some r once it returned) together
with the connections handed to spawned handler tasks, which the loop
never touches again. -/
def serveLoop : List LoopEv → Option (Option GoErr) × List NetConn
  | [] => (none, [])
  | LoopEv.conn c :: rest =>
    match serveLoop rest with
    | (r, spawned) => (r, c :: spawned)
  | LoopEv.acceptErr e :: _ => (some (some e), [])
  | LoopEv.shutdownSig :: _ => (some none, [])

/-- Embedding of the goroutine Serve spawns per accepted connection: it
runs ServeConn and, when that returns a non-nil error and an
ErrorHandler is configured, delivers the error to the handler; the
error goes nowhere else.  The result is the list of callback
deliveries. -/
def connTaskDeliver (handlerSet : Bool) (res : Option GoErr) : List GoErr :=
  match res with
  | some e => if handlerSet then [e] else []
  | none => []

/-! ## Concrete instantiations used by witnesses -/

/-- An authentication subroutine that succeeds immediately without
touching the connection, standing in for a concrete successful
negotiation. -/
def authTrivial : AuthFun := fun st => (Except.ok { method := 0, payload := [] }, st)

/-- A request decoder that fails with a generic malformed-frame error. -/
def newRequestTrivial : NewRequestFun :=
  fun st => (Except.error (DecodeErr.malformed "short frame"), st)

/-- A request decoder that fails with the unrecognized-address-type
sentinel. -/
def newRequestAtypBad : NewRequestFun :=
  fun st => (Except.error DecodeErr.unrecognizedAddrType, st)

/-- A request handler that succeeds without touching the connection. -/
def handleTrivial : HandleFun := fun _ st => (Except.ok (), st)

/-- The lifecycle state of a freshly constructed server that has stored
a listener: shutdown channel open, listener set and open. -/
def freshServerLifecycle : LifecycleState :=
  { shutdownClosed := false, listenerSet := true, listenerClosed := false }

/-! ## Helper lemmas -/

theorem readByte_events {st : ConnState} {v : Nat} {st1 : ConnState}
    (h : readByte st = some (v, st1)) : st1.events = st.events := by
  unfold readByte at h
  cases hi : st.input with
  | nil => rw [hi] at h; exact Option.noConfusion h
  | cons b rest =>
    rw [hi] at h
    cases h
    rfl

theorem closeCount_closeConn (st : ConnState) :
    closeCount (closeConn st) = closeCount st + 1 := by
  simp [closeCount, closeConn, List.count_append]

theorem closeCount_markEv (e : Ev) (st : ConnState) (he : e ≠ Ev.close) :
    closeCount (markEv e st) = closeCount st := by
  simp [closeCount, markEv, List.count_append, List.count_cons, he]

theorem closeCount_writeBytes (bs : List Nat) (st : ConnState) :
    closeCount (writeBytes bs st) = closeCount st := by
  have h : (bs.map Ev.write).count Ev.close = 0 :=
    List.count_eq_zero.mpr (by simp)
  simp [closeCount, writeBytes, List.count_append, h]

theorem closeCount_sendReply (code : Nat) (st : ConnState) :
    closeCount (sendReply code st) = closeCount st :=
  closeCount_writeBytes _ _

/-! ## Claim theorems -/

/-- C7: for every StaticCredentials map s, user u and password p,
s.Valid u p returns true exactly when u is bound in s and the stored
password equals p. -/
theorem staticCredentials_valid_iff (s : StaticCredentials) (u p : String) :
    s.Valid u p = true ↔ List.lookup u s = some p := by
  unfold StaticCredentials.Valid
  cases h : List.lookup u s with
  | none => simp
  | some pass =>
    simp only [beq_iff_eq, Option.some.injEq]
    exact eq_comm

/-- C9: the Error rendering of a wrapped connection error is the remote
address, the literal arrow separator, the local address, a colon and
space, and the cause message, with the Sprintf format string
interpreted verb by verb; and Unwrap returns exactly the underlying
cause. -/
theorem wrapdError_render_and_unwrap (e : WrapdError) :
    e.errorString = e.Conn.remoteAddr ++ " -> " ++ e.Conn.localAddr ++ ": " ++ e.Err.msg
    ∧ e.unwrap = e.Err := by
  refine ⟨?_, rfl⟩
  have hfmt : "%s -> %s: %s".data
      = ['%', 's', ' ', '-', '>', ' ', '%', 's', ':', ' ', '%', 's'] := rfl
  unfold WrapdError.errorString
  rw [hfmt]
  simp [sprintfS]
  simp [String.ext_iff, String.data_append]

/-- C10: New succeeds on every Config, producing a server and a nil
error; the error result is never taken. -/
theorem new_never_fails (conf : Config) : ∃ s, New conf = (some s, none) :=
  ⟨_, rfl⟩

/-- C3: the server New returns carries exactly one authentication
method when the configured list is empty — username/password backed by
the configured credential store when one is present, no-auth
otherwise — and carries the configured list unchanged when it is
non-empty. -/
theorem new_default_auth_methods (conf : Config) :
    ((New conf).1.map fun s => s.config.AuthMethods) =
      some (if conf.AuthMethods.isEmpty then
              match conf.Credentials with
              | some c => [Authenticator.UserPassAuthenticator c]
              | none => [Authenticator.NoAuthAuthenticator]
            else conf.AuthMethods) := by
  cases hA : conf.AuthMethods with
  | nil =>
    cases hc : conf.Credentials with
    | none => simp [New, hA, hc, apply_ite Config.AuthMethods]
    | some c => simp [New, hA, hc, apply_ite Config.AuthMethods]
  | cons a rest =>
    simp [New, hA, apply_ite Config.AuthMethods]

/-- C1 (failing behavior): calling Shutdown twice on a freshly
constructed server with a stored listener: the first call closes the
shutdown channel and the listener, the second call panics with "close
of closed channel" because Go panics on closing a closed channel, so a
second Shutdown does not complete normally. -/
theorem shutdown_twice_panics :
    Shutdown freshServerLifecycle =
      Except.ok { shutdownClosed := true, listenerSet := true, listenerClosed := true }
    ∧ (Shutdown freshServerLifecycle).bind Shutdown =
      Except.error { msg := "close of closed channel" } :=
  ⟨rfl, rfl⟩

/-- C8: when the first byte read from the connection is not 5, ServeConn
returns an error and the only action ever performed on the connection is
the single deferred Close: no byte is written, authentication is never
entered and no request is read. -/
theorem serveConn_bad_version (auth : AuthFun) (newReq : NewRequestFun) (handle : HandleFun)
    (st0 st1 : ConnState) (v : Nat)
    (hread : readByte st0 = some (v, st1)) (hv : v ≠ 5) :
    (∃ e, (ServeConn auth newReq handle st0).1 = Except.error e)
    ∧ (ServeConn auth newReq handle st0).2.events = st0.events ++ [Ev.close] := by
  unfold ServeConn serveConnBody
  rw [hread]
  simp [hv, closeConn, readByte_events hread]

/-- Witness for C8 at the concrete connection whose first byte is 4. -/
theorem serveConn_bad_version_witness :
    (∃ e, (ServeConn authTrivial newRequestTrivial handleTrivial ⟨[4], []⟩).1 = Except.error e)
    ∧ (ServeConn authTrivial newRequestTrivial handleTrivial ⟨[4], []⟩).2.events
        = ([] : List Ev) ++ [Ev.close] :=
  serveConn_bad_version authTrivial newRequestTrivial handleTrivial ⟨[4], []⟩ ⟨[], []⟩ 4
    rfl (by decide)

/-- C2: after a successful authentication, when request decoding fails
ServeConn returns an error, and the final connection trace shows that a
reply with code 8 was written exactly when the decode error was the
unrecognized-address-type sentinel, and that nothing was written for
any other decode error; the deferred Close follows in both cases. -/
theorem serveConn_decode_failure (auth : AuthFun) (newReq : NewRequestFun) (handle : HandleFun)
    (st0 st1 : ConnState) (ctx : AuthContext) (st2 : ConnState) (de : DecodeErr)
    (st3 : ConnState)
    (hread : readByte st0 = some (5, st1))
    (hauth : auth (markEv Ev.authStart st1) = (Except.ok ctx, st2))
    (hreq : newReq (markEv Ev.reqStart st2) = (Except.error de, st3)) :
    (∃ e, (ServeConn auth newReq handle st0).1 = Except.error e)
    ∧ (ServeConn auth newReq handle st0).2 =
        closeConn (if de = DecodeErr.unrecognizedAddrType
                   then sendReply addrTypeNotSupported st3 else st3) := by
  unfold ServeConn serveConnBody
  rw [hread]
  by_cases hde : de = DecodeErr.unrecognizedAddrType <;>
    simp [hauth, hreq, hde]

/-- Witness for C2 at a concrete connection: version byte 5, trivially
successful authentication, and a decoder failing with the
unrecognized-address-type sentinel; the final trace carries the code-8
reply followed by the Close. -/
theorem serveConn_decode_failure_witness :
    (∃ e, (ServeConn authTrivial newRequestAtypBad handleTrivial ⟨[5], []⟩).1 = Except.error e)
    ∧ (ServeConn authTrivial newRequestAtypBad handleTrivial ⟨[5], []⟩).2 =
        closeConn (if DecodeErr.unrecognizedAddrType = DecodeErr.unrecognizedAddrType
                   then sendReply addrTypeNotSupported ⟨[], [Ev.authStart, Ev.reqStart]⟩
                   else ⟨[], [Ev.authStart, Ev.reqStart]⟩) :=
  serveConn_decode_failure authTrivial newRequestAtypBad handleTrivial ⟨[5], []⟩ ⟨[], []⟩
    { method := 0, payload := [] } ⟨[], [Ev.authStart]⟩ DecodeErr.unrecognizedAddrType
    ⟨[], [Ev.authStart, Ev.reqStart]⟩ rfl rfl rfl

/-- The body of ServeConn performs no Close itself, provided the three
delegated subroutines leave the Close count of the connection
unchanged. -/
theorem serveConnBody_closeCount (auth : AuthFun) (newReq : NewRequestFun)
    (handle : HandleFun) (st0 : ConnState)
    (hauth : ∀ st, closeCount (auth st).2 = closeCount st)
    (hreq : ∀ st, closeCount (newReq st).2 = closeCount st)
    (hhandle : ∀ r st, closeCount (handle r st).2 = closeCount st) :
    closeCount (serveConnBody auth newReq handle st0).2 = closeCount st0 := by
  unfold serveConnBody
  cases hr : readByte st0 with
  | none => simp
  | some p =>
    obtain ⟨v, st1⟩ := p
    have h1 : closeCount st1 = closeCount st0 := by
      simp [closeCount, readByte_events hr]
    by_cases hv : v = 5
    · simp only [hv, ne_eq, not_true_eq_false, if_false, ite_false]
      cases hA : auth (markEv Ev.authStart st1) with
      | mk ares st2 =>
        have h2 : closeCount st2 = closeCount st0 := by
          have hx := hauth (markEv Ev.authStart st1)
          rw [hA] at hx
          rw [hx, closeCount_markEv _ _ (by simp), h1]
        cases ares with
        | error e => simpa using h2
        | ok ctx =>
          cases hB : newReq (markEv Ev.reqStart st2) with
          | mk rres st3 =>
            have h3 : closeCount st3 = closeCount st0 := by
              have hx := hreq (markEv Ev.reqStart st2)
              rw [hB] at hx
              rw [hx, closeCount_markEv _ _ (by simp), h2]
            cases rres with
            | error de =>
              by_cases hde : de = DecodeErr.unrecognizedAddrType
              · simp [hB, hde, closeCount_sendReply, h3]
              · simp [hB, hde, h3]
            | ok request =>
              cases hC : handle { request with authCtx := some ctx } st3 with
              | mk hres st4 =>
                have h4 : closeCount st4 = closeCount st0 := by
                  have hx := hhandle { request with authCtx := some ctx } st3
                  rw [hC] at hx
                  rw [hx, h3]
                cases hres with
                | error e => simp [hB, hC, h4]
                | ok u => simp [hB, hC, h4]
    · simp [hv, h1]

/-- C6: ServeConn closes the client connection exactly once on every
return path, whichever phase fails, provided the delegated subroutines
(authentication, request decoding, request handling) never close it
themselves. -/
theorem serveConn_close_exactly_once (auth : AuthFun) (newReq : NewRequestFun)
    (handle : HandleFun) (st0 : ConnState)
    (hauth : ∀ st, closeCount (auth st).2 = closeCount st)
    (hreq : ∀ st, closeCount (newReq st).2 = closeCount st)
    (hhandle : ∀ r st, closeCount (handle r st).2 = closeCount st) :
    closeCount (ServeConn auth newReq handle st0).2 = closeCount st0 + 1 := by
  unfold ServeConn
  have hb := serveConnBody_closeCount auth newReq handle st0 hauth hreq hhandle
  cases hx : serveConnBody auth newReq handle st0 with
  | mk r st1 =>
    rw [hx] at hb
    simpa [closeCount_closeConn] using hb

/-- Witness for C6 at a concrete connection and concrete subroutines
that never close it. -/
theorem serveConn_close_exactly_once_witness :
    closeCount (ServeConn authTrivial newRequestTrivial handleTrivial ⟨[5], []⟩).2
      = closeCount ⟨[5], []⟩ + 1 :=
  serveConn_close_exactly_once authTrivial newRequestTrivial handleTrivial ⟨[5], []⟩
    (fun _ => rfl) (fun _ => rfl) (fun _ _ => rfl)

/-- Receiving a connection spawns a handler and leaves the loop's
return value to the rest of the schedule. -/
theorem serveLoop_conn_fst (c : NetConn) (rest : List LoopEv) :
    (serveLoop (LoopEv.conn c :: rest)).1 = (serveLoop rest).1 := by
  cases h : serveLoop rest with
  | mk r sp => simp [serveLoop, h]

/-- Every error the loop returns was received from the accept
goroutine's error channel: it appears as an accept-error resolution in
the schedule. -/
theorem serveLoop_error_mem (evs : List LoopEv) (e : GoErr)
    (h : (serveLoop evs).1 = some (some e)) : LoopEv.acceptErr e ∈ evs := by
  induction evs with
  | nil => exact absurd h (by simp [serveLoop])
  | cons ev rest ih =>
    cases ev with
    | conn c =>
      rw [serveLoop_conn_fst] at h
      exact List.mem_cons_of_mem _ (ih h)
    | acceptErr e2 =>
      have : e2 = e := by simpa [serveLoop] using h
      rw [← this]
      exact List.mem_cons_self _ _
    | shutdownSig => exact absurd h (by simp [serveLoop])

/-- C4 (counterexample): in the run where Shutdown has closed the
listener, Accept has returned the closed-listener error and the
goroutine is offering it on the error channel, the select may commit to
the shutdown case first, and then Serve returns nil rather than the
error Accept returned. -/
theorem serve_accept_error_cex :
    LoopEv.acceptErr errListenerClosed
        ∈ [LoopEv.shutdownSig, LoopEv.acceptErr errListenerClosed]
    ∧ (serveLoop [LoopEv.shutdownSig, LoopEv.acceptErr errListenerClosed]).1 = some none
    ∧ (some (none : Option GoErr)) ≠ some (some errListenerClosed) := by
  refine ⟨by simp, rfl, by simp⟩

/-- C4 (amended): in a run where shutdown is never signalled, the
single error Accept returns is returned by Serve; an error produced by
ServeConn is handed to the ErrorHandler callback exactly when one is
configured and is discarded otherwise; and every error Serve returns
came from Accept, never from a connection handler. -/
theorem serve_error_propagation (evs : List LoopEv) (e err : GoErr)
    (hno : LoopEv.shutdownSig ∉ evs)
    (hmem : LoopEv.acceptErr e ∈ evs)
    (huniq : ∀ e2, LoopEv.acceptErr e2 ∈ evs → e2 = e) :
    (serveLoop evs).1 = some (some e)
    ∧ connTaskDeliver true (some err) = [err]
    ∧ connTaskDeliver false (some err) = []
    ∧ ∀ evs2 e2, (serveLoop evs2).1 = some (some e2) → LoopEv.acceptErr e2 ∈ evs2 := by
  refine ⟨?_, rfl, rfl, fun evs2 e2 h => serveLoop_error_mem evs2 e2 h⟩
  induction evs with
  | nil => cases hmem
  | cons ev rest ih =>
    cases ev with
    | conn c =>
      rw [serveLoop_conn_fst]
      refine ih (fun h => hno (List.mem_cons_of_mem _ h)) ?_ ?_
      · rcases List.mem_cons.mp hmem with h | h
        · exact absurd h (by simp)
        · exact h
      · exact fun e2 h => huniq e2 (List.mem_cons_of_mem _ h)
    | acceptErr e2 =>
      have he2 : e2 = e := huniq e2 (List.mem_cons_self _ _)
      simp [serveLoop, he2]
    | shutdownSig => exact absurd (List.mem_cons_self _ _) hno

/-- Witness for C4 (amended) on a concrete shutdown-free schedule: one
connection, then the accept error, which Serve returns. -/
theorem serve_error_propagation_witness :
    (serveLoop [LoopEv.conn (7 : Nat), LoopEv.acceptErr { msg := "accept: network down" }]).1
      = some (some { msg := "accept: network down" }) :=
  (serve_error_propagation [LoopEv.conn (7 : Nat), LoopEv.acceptErr { msg := "accept: network down" }]
    { msg := "accept: network down" } { msg := "handler failure" }
    (by simp) (by simp) (by intro e2 h; simpa using h)).1

/-- C5 (counterexample): in the same post-shutdown run, the select may
instead commit to the error channel first, and then Serve returns the
closed-listener accept error rather than nil, even though Shutdown was
invoked. -/
theorem serve_shutdown_nil_cex :
    LoopEv.shutdownSig ∈ [LoopEv.acceptErr errListenerClosed, LoopEv.shutdownSig]
    ∧ (serveLoop [LoopEv.acceptErr errListenerClosed, LoopEv.shutdownSig]).1
        = some (some errListenerClosed)
    ∧ some (some errListenerClosed) ≠ (some (none : Option GoErr)) := by
  refine ⟨by simp, rfl, by simp⟩

/-- C5 (amended): once the shutdown channel is closed, Serve does
return promptly, but with either nil (shutdown case selected) or the
accept error pending from the closed listener (error case selected
first); the loop itself never touches spawned handlers. -/
theorem serve_shutdown_terminates (evs : List LoopEv)
    (hsig : LoopEv.shutdownSig ∈ evs) :
    (serveLoop evs).1 = some none
    ∨ ∃ e, LoopEv.acceptErr e ∈ evs ∧ (serveLoop evs).1 = some (some e) := by
  induction evs with
  | nil => cases hsig
  | cons ev rest ih =>
    cases ev with
    | conn c =>
      have hr : LoopEv.shutdownSig ∈ rest := by
        rcases List.mem_cons.mp hsig with h | h
        · exact absurd h (by simp)
        · exact h
      rcases ih hr with h | ⟨e, hm, he⟩
      · left
        rw [serveLoop_conn_fst]
        exact h
      · right
        refine ⟨e, List.mem_cons_of_mem _ hm, ?_⟩
        rw [serveLoop_conn_fst]
        exact he
    | acceptErr e =>
      right
      exact ⟨e, List.mem_cons_self _ _, by simp [serveLoop]⟩
    | shutdownSig =>
      left
      simp [serveLoop]

/-- Witness for C5 (amended) on the schedule where the shutdown case is
selected at once. -/
theorem serve_shutdown_terminates_witness :
    (serveLoop [LoopEv.shutdownSig]).1 = some none
    ∨ ∃ e, LoopEv.acceptErr e ∈ [LoopEv.shutdownSig]
        ∧ (serveLoop [LoopEv.shutdownSig]).1 = some (some e) :=
  serve_shutdown_terminates [LoopEv.shutdownSig] (by simp)

end Socks5
